import Mathlib

/-!
# Mesen-S orchestration core: `Console`

A shallow embedding of `Core/Console.cpp` / `Core/Console.h`.

* A `shared_ptr` member of `Console` is an `Option`: `none` is the null pointer, `some o`
  an object with an identity (`id`) and an internal state.
* Dereferencing a null pointer has no defined result, so a member function that
  dereferences a member returns `Option`; `none` stands for that undefined run.
* Calls into collaborators whose code lies outside `Console.cpp` (notification manager,
  message manager, locks, subsystem methods) are appended, in call order, to `Console.log`.
* The infrastructure objects created by `Console::Console` / `Console::Initialize`
  (`_settings`, `_notificationManager`, `_videoDecoder`, `_soundMixer`, `_cheatManager`,
  `_batteryManager`) are taken to be present: the model is of an initialised console.
-/

namespace MesenS

/-! ## Enumerations and plain data -/

/-- Modelled from the spec: `enum class ConsoleRegion`, which `Console.h` only forward-declares;
the spec's RegionInfo is {Auto, StandardA, StandardB}, named `Auto`, `Ntsc` and `Pal` by
`Console::UpdateRegion`. -/
inductive ConsoleRegion where
  | Auto
  | Ntsc
  | Pal
  deriving DecidableEq, Repr

/-- Modelled from the spec: `enum class ConsoleType`, which `Console.h` only forward-declares; the
three values `Console.cpp` assigns (the spec's HardwareProfile tags). -/
inductive ConsoleType where
  | Snes
  | Gameboy
  | GameboyColor
  deriving DecidableEq, Repr

/-- Modelled from the spec: the members of `enum class ConsoleNotificationType` that `Console.cpp`
sends (spec section 6, lifecycle notifications). -/
inductive ConsoleNotificationType where
  | GameLoaded
  | StateLoaded
  | GameReset
  | BeforeEmulationStop
  | EmulationStopped
  | BeforeGameUnload
  deriving DecidableEq, Repr

/-- The members of `Console` that hold one subsystem of the session each. -/
inductive Subsystem where
  | Cpu
  | MemoryManager
  | Ppu
  | DmaController
  | InternalRegisters
  | Cart
  | ControlManager
  | Spc
  | Msu1
  | RewindManager
  deriving DecidableEq, Repr

/-- The subsystem methods `Console.cpp` calls. -/
inductive Method where
  | Reset
  | PowerOn
  | Init
  | GameboyPowerOn
  | SaveBattery
  | UpdateControlDevices
  deriving DecidableEq, Repr

/-- A `VirtualFile`, reduced to its identity. -/
abbrev VirtualFile := Nat

/-- The `RomInfo` of a cartridge: the rom file and the patch file. -/
structure RomInfo where
  RomFile : VirtualFile
  PatchFile : VirtualFile
  deriving DecidableEq, Repr

/-- The two messages `Console::LoadRom` hands to `MessageManager::DisplayMessage`. -/
inductive Message where
  /-- The localised "GameLoaded" title with the model name ("PAL" when `pal`, else "NTSC") and
  the rom file name. -/
  | GameLoaded (pal : Bool) (file : VirtualFile)
  /-- The call `DisplayMessage("Error", "CouldNotLoadFile", romFile.GetFileName())`. -/
  | CouldNotLoadFile (file : VirtualFile)
  deriving DecidableEq, Repr

/-- One observable call made by `Console` into a collaborator. -/
inductive Event where
  /-- A `_notificationManager->SendNotification(type, parameter)`; a call without a parameter has
  the null parameter, `false`. -/
  | Notify (type : ConsoleNotificationType) (parameter : Bool)
  /-- A `MessageManager::DisplayMessage`. -/
  | DisplayMessage (m : Message)
  /-- A `_runLock.Acquire()`. -/
  | RunLockAcquire
  /-- A `_runLock.Release()`. -/
  | RunLockRelease
  /-- A `_emulationLock.WaitForRelease()`. -/
  | EmulationLockWaitForRelease
  /-- A method call on a subsystem. -/
  | Call (k : Subsystem) (m : Method)
  /-- A `.reset()` of a subsystem reference, which releases the object. -/
  | Released (k : Subsystem)
  /-- The call `ProcessEvent(EventType::Reset)`. -/
  | ProcessEventReset
  /-- The call `_videoDecoder->StopThread()`. -/
  | VideoDecoderStopThread
  /-- The call `_soundMixer->StopAudio(true)`. -/
  | StopAudio
  /-- The call `_cheatManager->ClearCheats(false)`. -/
  | ClearCheats
  /-- The call `KeyManager::UpdateDevices()`. -/
  | KeyManagerUpdateDevices
  /-- The call `_batteryManager->Initialize(name of the rom file)`. -/
  | BatteryManagerInit (file : VirtualFile)
  /-- The call `_notificationManager->RegisterNotificationListener(_rewindManager)`. -/
  | RegisterNotificationListener
  deriving DecidableEq, Repr

/-- The part of `EmulationConfig` that `Console.cpp` reads (`Region`), and the rest of it. -/
structure EmulationConfig where
  Region : ConsoleRegion
  rest : Nat
  deriving DecidableEq, Repr

/-- The part of `VideoConfig` that `Console.cpp` reads. -/
structure VideoConfig where
  IntegerFpsMode : Bool
  deriving DecidableEq, Repr

/-- The settings object: the emulation and video configurations and the
`EmulationFlags::GameboyMode` flag. -/
structure EmuSettings where
  emulation : EmulationConfig
  video : VideoConfig
  GameboyMode : Bool
  deriving DecidableEq, Repr

/-- An object behind a `shared_ptr`: its identity and its internal state. -/
structure Obj (σ : Type) where
  id : Nat
  state : σ
  deriving DecidableEq, Repr

/-- A `BaseCartridge` behind a `shared_ptr`: identity, what the getters used by `Console.cpp`
return, and the internal state. -/
structure BaseCartridge (σ : Type) where
  id : Nat
  /-- The result of `GetRegion()`. -/
  region : ConsoleRegion
  /-- Whether `GetCoprocessor()` is non-null. -/
  coprocessor : Bool
  /-- The result of `GetGameboy()`: `none` when null, else the core's `IsCgb()`. -/
  gameboy : Option Bool
  /-- The result of `GetRomInfo()`. -/
  romInfo : RomInfo
  state : σ
  deriving DecidableEq, Repr

/-- The members of `Console` (`Console.h`), with the call log and the next fresh object identity. -/
structure Console (σ : Type) where
  cpu : Option (Obj σ)
  ppu : Option (Obj σ)
  spc : Option (Obj σ)
  memoryManager : Option (Obj σ)
  cart : Option (BaseCartridge σ)
  internalRegisters : Option (Obj σ)
  controlManager : Option (Obj σ)
  dmaController : Option (Obj σ)
  msu1 : Option (Obj σ)
  rewindManager : Option (Obj σ)
  settings : EmuSettings
  /-- The `atomic<uint32_t> _lockCounter`, a number below `2 ^ 32`. -/
  lockCounter : Nat
  stopFlag : Bool
  paused : Bool
  region : ConsoleRegion
  consoleType : ConsoleType
  /-- The `uint32_t _masterClockRate`. -/
  masterClockRate : Nat
  frameRunning : Bool
  /-- The identity the next constructed object receives. -/
  nextId : Nat
  /-- The calls made into collaborators so far, oldest first. -/
  log : List Event
  deriving DecidableEq, Repr

variable {σ : Type}

/-- Append one call to the log. -/
def Console.emit (c : Console σ) (e : Event) : Console σ :=
  { c with log := c.log ++ [e] }

/-! ## Region and timing -/

/-- The function `Console::UpdateRegion`. -/
def UpdateRegion (c : Console σ) : Option (Console σ) := do
  let region ← match c.settings.emulation.Region with
    | ConsoleRegion.Auto => c.cart.map fun cart => cart.region
    | ConsoleRegion.Ntsc => some ConsoleRegion.Ntsc
    | ConsoleRegion.Pal => some ConsoleRegion.Pal
  pure { c with
    region := region
    masterClockRate := if region = ConsoleRegion.Pal then 21281370 else 21477270 }

/-- The function `Console::GetRegion`. -/
def GetRegion (c : Console σ) : ConsoleRegion := c.region

/-- The function `Console::GetMasterClockRate`. -/
def GetMasterClockRate (c : Console σ) : Nat := c.masterClockRate

/-- The function `Console::GetFps`; a `double` literal is denoted by its decimal value. -/
def GetFps (c : Console σ) : ℚ :=
  if c.settings.GameboyMode then
    59.72750056960583
  else if c.region = ConsoleRegion.Ntsc then
    (if c.settings.video.IntegerFpsMode then 60.0 else 60.0988118623484)
  else
    (if c.settings.video.IntegerFpsMode then 50.0 else 50.00697796826829)

/-! ## Collaborators outside `Console.cpp` -/

/-- One self-delimited subsystem block of a save state. -/
abbrev Block := List Nat

/-- Modelled from the spec: the collaborators the orchestrator calls, whose code lies in other
files than `Console.cpp`; each is specified only through what `Console` calls on it (spec
section 1). -/
structure Env (σ : Type) where
  /-- The constant `SaveStateManager::FileFormatVersion`. -/
  FileFormatVersion : Nat
  /-- The function `BaseCartridge::CreateCartridge`: `none` (a null pointer) when the image is
  not recognised. The identity of the returned object is given by `Console`. -/
  CreateCartridge : VirtualFile → VirtualFile → Option (BaseCartridge σ)
  /-- The function `Msu1::Init`: the state of the new unit, or `none` (a null pointer). -/
  Msu1Init : VirtualFile → Option σ
  /-- The state a constructor leaves a new subsystem in. -/
  construct : Subsystem → σ
  /-- The effect of a method of a subsystem on that subsystem's state. -/
  call : Subsystem → Method → σ → σ
  /-- What a subsystem's `Serialize` writes into a saving serializer. -/
  encode : Subsystem → σ → Block
  /-- What a subsystem's `Serialize` does to its state from a block of a loading serializer of
  the given format version. -/
  decode : Subsystem → Nat → Block → σ → σ

/-- A method call on an object. -/
def Obj.call (env : Env σ) (k : Subsystem) (m : Method) (o : Obj σ) : Obj σ :=
  { o with state := env.call k m o.state }

/-- A method call on the cartridge. -/
def BaseCartridge.call (env : Env σ) (m : Method) (o : BaseCartridge σ) : BaseCartridge σ :=
  { o with state := env.call Subsystem.Cart m o.state }

/-- Modelled from the spec: the `Serializer` of `Utilities/Serializer.h`, which `Console.cpp`
only includes. A save state is the format version and the subsystem blocks in a fixed order (spec
sections 4.3 and 6); `data` is what has been written so far when saving and what is still to be
read when loading. Compression does not change the blocks and is left out. -/
structure Serializer where
  version : Nat
  saving : Bool
  data : List Block
  deriving DecidableEq, Repr

/-- Modelled from the spec: `Serializer::Stream` on a subsystem state. Saving appends the
subsystem's block and leaves the state alone; loading reads the next block (an empty block when
the data is exhausted) into the state. -/
def Serializer.StreamState (env : Env σ) (s : Serializer) (k : Subsystem) (x : σ) :
    Serializer × σ :=
  match s with
  | { version := v, saving := true, data := d } =>
    ({ version := v, saving := true, data := d ++ [env.encode k x] }, x)
  | { version := v, saving := false, data := [] } =>
    ({ version := v, saving := false, data := [] }, env.decode k v [] x)
  | { version := v, saving := false, data := b :: rest } =>
    ({ version := v, saving := false, data := rest }, env.decode k v b x)

/-- The call `serializer.Stream(p.get())` on a subsystem object. -/
def Serializer.Stream (env : Env σ) (s : Serializer) (k : Subsystem) (o : Obj σ) :
    Serializer × Obj σ :=
  match s.StreamState env k o.state with
  | (s1, state) => (s1, { o with state := state })

/-- The call `serializer.Stream(_cart.get())`. -/
def Serializer.StreamCart (env : Env σ) (s : Serializer) (o : BaseCartridge σ) :
    Serializer × BaseCartridge σ :=
  match s.StreamState env Subsystem.Cart o.state with
  | (s1, state) => (s1, { o with state := state })

/-! ## Locking -/

/-- The value of a `uint32_t` after `++`. -/
def inc32 (n : Nat) : Nat := (n + 1) % 2 ^ 32

/-- The value of a `uint32_t` after `--`. -/
def dec32 (n : Nat) : Nat := (((n : Int) - 1) % 2 ^ 32).toNat

/-- The assignment `_lockCounter = 0` of `Console::Console` and `Console::Initialize`; the objects
they create are the infrastructure the model takes as present. -/
def Initialize (c : Console σ) : Console σ :=
  { c with lockCounter := 0 }


/-- The function `Console::Lock`. -/
def Lock (c : Console σ) : Console σ :=
  ({ c with lockCounter := inc32 c.lockCounter }).emit Event.RunLockAcquire

/-- The function `Console::Unlock`. -/
def Unlock (c : Console σ) : Console σ :=
  let c := c.emit Event.RunLockRelease
  { c with lockCounter := dec32 c.lockCounter }

/-! ## Lifecycle -/

/-- The function `Console::Stop`. -/
def Stop (c : Console σ) (sendNotification : Bool) : Console σ :=
  let c := { c with stopFlag := true }
  let c := c.emit (Event.Notify ConsoleNotificationType.BeforeGameUnload false)
  let c := c.emit Event.EmulationLockWaitForRelease
  let c := if sendNotification then
      c.emit (Event.Notify ConsoleNotificationType.BeforeEmulationStop false)
    else c
  let c := { c with consoleType := ConsoleType.Snes }
  let c := { c with settings := { c.settings with GameboyMode := false } }
  let c := c.emit Event.VideoDecoderStopThread
  let c := ({ c with rewindManager := none }).emit (Event.Released Subsystem.RewindManager)
  let c := ({ c with cpu := none }).emit (Event.Released Subsystem.Cpu)
  let c := ({ c with ppu := none }).emit (Event.Released Subsystem.Ppu)
  let c := ({ c with spc := none }).emit (Event.Released Subsystem.Spc)
  let c := ({ c with cart := none }).emit (Event.Released Subsystem.Cart)
  let c := ({ c with internalRegisters := none }).emit (Event.Released Subsystem.InternalRegisters)
  let c := ({ c with controlManager := none }).emit (Event.Released Subsystem.ControlManager)
  let c := ({ c with memoryManager := none }).emit (Event.Released Subsystem.MemoryManager)
  let c := ({ c with dmaController := none }).emit (Event.Released Subsystem.DmaController)
  let c := ({ c with msu1 := none }).emit (Event.Released Subsystem.Msu1)
  let c := c.emit Event.StopAudio
  if sendNotification then
    c.emit (Event.Notify ConsoleNotificationType.EmulationStopped false)
  else c

/-- The function `Console::Reset`. -/
def Reset (env : Env σ) (c : Console σ) : Option (Console σ) := do
  let c := { c with lockCounter := inc32 c.lockCounter }
  let c := c.emit Event.RunLockAcquire
  let dma ← c.dmaController
  let c := ({ c with dmaController := some (dma.call env Subsystem.DmaController Method.Reset) }).emit
    (Event.Call Subsystem.DmaController Method.Reset)
  let regs ← c.internalRegisters
  let c := ({ c with
    internalRegisters := some (regs.call env Subsystem.InternalRegisters Method.Reset) }).emit
    (Event.Call Subsystem.InternalRegisters Method.Reset)
  let mm ← c.memoryManager
  let c := ({ c with memoryManager := some (mm.call env Subsystem.MemoryManager Method.Reset) }).emit
    (Event.Call Subsystem.MemoryManager Method.Reset)
  let spc ← c.spc
  let c := ({ c with spc := some (spc.call env Subsystem.Spc Method.Reset) }).emit
    (Event.Call Subsystem.Spc Method.Reset)
  let ppu ← c.ppu
  let c := ({ c with ppu := some (ppu.call env Subsystem.Ppu Method.Reset) }).emit
    (Event.Call Subsystem.Ppu Method.Reset)
  let cart ← c.cart
  let c := ({ c with cart := some (cart.call env Method.Reset) }).emit
    (Event.Call Subsystem.Cart Method.Reset)
  -- `_controlManager->Reset()` is commented out in the source
  let cpu ← c.cpu
  let c := ({ c with cpu := some (cpu.call env Subsystem.Cpu Method.Reset) }).emit
    (Event.Call Subsystem.Cpu Method.Reset)
  let c := c.emit (Event.Notify ConsoleNotificationType.GameReset false)
  let c := c.emit Event.ProcessEventReset
  let c := c.emit Event.RunLockRelease
  pure { c with lockCounter := dec32 c.lockCounter }

/-- The function `Console::GetRomInfo`; the default `RomInfo` has the empty file, `0`. -/
def GetRomInfo (c : Console σ) : RomInfo :=
  match c.cart with
  | some cart => cart.romInfo
  | none => { RomFile := 0, PatchFile := 0 }

/-- A `new` in `Console::LoadRom`: an object of kind `k` with a fresh identity. -/
def Console.create (env : Env σ) (c : Console σ) (k : Subsystem) : Obj σ × Console σ :=
  ({ id := c.nextId, state := env.construct k }, { c with nextId := c.nextId + 1 })

/-- The block of `Console::LoadRom` that runs once a cartridge is at hand (the body of
`if(cart)`, up to `result = true`). -/
def LoadRom.withCartridge (env : Env σ) (c : Console σ) (cart : BaseCartridge σ)
    (romFile : VirtualFile) (stopRom forPowerCycle : Bool) : Option (Console σ) := do
  let c := if stopRom then Stop (c.emit Event.KeyManagerUpdateDevices) false else c
  let c := c.emit Event.ClearCheats
  let c := { c with cart := some cart }
  let c := c.emit (Event.BatteryManagerInit romFile)
  let c ← UpdateRegion c
  let (regs, c) := c.create env Subsystem.InternalRegisters
  let c := { c with internalRegisters := some regs }
  let (mm, c) := c.create env Subsystem.MemoryManager
  let c := { c with memoryManager := some mm }
  let (ppu, c) := c.create env Subsystem.Ppu
  let c := { c with ppu := some ppu }
  let (ctl, c) := c.create env Subsystem.ControlManager
  let c := { c with controlManager := some ctl }
  let (dma, c) := c.create env Subsystem.DmaController
  let c := { c with dmaController := some dma }
  let (spc, c) := c.create env Subsystem.Spc
  let c := { c with spc := some spc }
  let c := { c with
    msu1 := (env.Msu1Init romFile).map fun st => { id := c.nextId, state := st }
    nextId := if (env.Msu1Init romFile).isSome then c.nextId + 1 else c.nextId }
  let (cpu, c) := c.create env Subsystem.Cpu
  let c := { c with cpu := some cpu }
  let mm ← c.memoryManager
  let c := ({ c with memoryManager := some (mm.call env Subsystem.MemoryManager Method.Init) }).emit
    (Event.Call Subsystem.MemoryManager Method.Init)
  let regs ← c.internalRegisters
  let c := ({ c with
    internalRegisters := some (regs.call env Subsystem.InternalRegisters Method.Init) }).emit
    (Event.Call Subsystem.InternalRegisters Method.Init)
  let held ← c.cart
  let c := match held.coprocessor, held.gameboy with
    | false, some cgb =>
      let c := ({ c with cart := some (held.call env Method.GameboyPowerOn) }).emit
        (Event.Call Subsystem.Cart Method.GameboyPowerOn)
      let c := { c with
        consoleType := if cgb then ConsoleType.GameboyColor else ConsoleType.Gameboy }
      { c with settings := { c.settings with GameboyMode := true } }
    | _, _ =>
      let c := { c with consoleType := ConsoleType.Snes }
      { c with settings := { c.settings with GameboyMode := false } }
  let ppu ← c.ppu
  let c := ({ c with ppu := some (ppu.call env Subsystem.Ppu Method.PowerOn) }).emit
    (Event.Call Subsystem.Ppu Method.PowerOn)
  let cpu ← c.cpu
  let c := ({ c with cpu := some (cpu.call env Subsystem.Cpu Method.PowerOn) }).emit
    (Event.Call Subsystem.Cpu Method.PowerOn)
  let (rewind, c) := c.create env Subsystem.RewindManager
  let c := { c with rewindManager := some rewind }
  let c := c.emit Event.RegisterNotificationListener
  let ctl ← c.controlManager
  let c := ({ c with
    controlManager := some (ctl.call env Subsystem.ControlManager Method.UpdateControlDevices) }).emit
    (Event.Call Subsystem.ControlManager Method.UpdateControlDevices)
  let c ← UpdateRegion c
  let c := c.emit (Event.Notify ConsoleNotificationType.GameLoaded forPowerCycle)
  let c := { c with paused := false }
  let c := if !forPowerCycle then
      c.emit (Event.DisplayMessage
        (Message.GameLoaded (decide (c.region = ConsoleRegion.Pal)) (GetRomInfo c).RomFile))
    else c
  pure c

/-- The function `Console::LoadRom`; the result is the returned flag and the console. -/
def LoadRom (env : Env σ) (c : Console σ) (romFile patchFile : VirtualFile)
    (stopRom forPowerCycle : Bool) : Option (Bool × Console σ) := do
  let c := match c.cart with
    | some cart =>
      ({ c with cart := some (cart.call env Method.SaveBattery) }).emit
        (Event.Call Subsystem.Cart Method.SaveBattery)
    | none => c
  let orgConfig := c.settings.emulation
  let (cart, c) :=
    if forPowerCycle then (c.cart, c)
    else match env.CreateCartridge romFile patchFile with
      | some made => (some { made with id := c.nextId }, { c with nextId := c.nextId + 1 })
      | none => (none, c)
  match cart with
  | some cart =>
    let c ← LoadRom.withCartridge env c cart romFile stopRom forPowerCycle
    pure (true, { c with settings := { c.settings with emulation := orgConfig } })
  | none =>
    let c := c.emit (Event.DisplayMessage (Message.CouldNotLoadFile romFile))
    pure (false, { c with settings := { c.settings with emulation := orgConfig } })

/-- The function `Console::ReloadRom`. -/
def ReloadRom (env : Env σ) (c : Console σ) (forPowerCycle : Bool) : Option (Console σ) :=
  match c.cart with
  | some cart => do
    let info := cart.romInfo
    let c := Lock c
    let (_, c) ← LoadRom env c info.RomFile info.PatchFile false forPowerCycle
    pure (Unlock c)
  | none => some c

/-- The function `Console::PowerCycle`. -/
def PowerCycle (env : Env σ) (c : Console σ) : Option (Console σ) :=
  ReloadRom env c true

/-- The function `Console::IsRunning`. -/
def IsRunning (c : Console σ) : Bool := c.cpu.isSome

/-! ## Save states -/

/-- The function `Console::Serialize`; the result is the data handed to `serializer.Save`. -/
def Serialize (env : Env σ) (c : Console σ) (_compressionLevel : Nat) : Option (List Block) := do
  let s : Serializer := { version := env.FileFormatVersion, saving := true, data := [] }
  let isGameboyMode := c.settings.GameboyMode
  if !isGameboyMode then
    let cpu ← c.cpu
    let s := (s.Stream env Subsystem.Cpu cpu).1
    let mm ← c.memoryManager
    let s := (s.Stream env Subsystem.MemoryManager mm).1
    let ppu ← c.ppu
    let s := (s.Stream env Subsystem.Ppu ppu).1
    let dma ← c.dmaController
    let s := (s.Stream env Subsystem.DmaController dma).1
    let regs ← c.internalRegisters
    let s := (s.Stream env Subsystem.InternalRegisters regs).1
    let cart ← c.cart
    let s := (s.StreamCart env cart).1
    let ctl ← c.controlManager
    let s := (s.Stream env Subsystem.ControlManager ctl).1
    let spc ← c.spc
    let s := (s.Stream env Subsystem.Spc spc).1
    let s := match c.msu1 with
      | some msu1 => (s.Stream env Subsystem.Msu1 msu1).1
      | none => s
    pure s.data
  else
    let cart ← c.cart
    let s := (s.StreamCart env cart).1
    let ctl ← c.controlManager
    let s := (s.Stream env Subsystem.ControlManager ctl).1
    pure s.data

/-- The function `Console::Deserialize`; `input` is the data of the stream `in`. -/
def Deserialize (env : Env σ) (c : Console σ) (input : List Block) (fileFormatVersion : Nat)
    (_compressed : Bool) : Option (Console σ) := do
  let s : Serializer := { version := fileFormatVersion, saving := false, data := input }
  let isGameboyMode := c.settings.GameboyMode
  let c ← if !isGameboyMode then do
      let cpu ← c.cpu
      let (s, cpu) := s.Stream env Subsystem.Cpu cpu
      let c := { c with cpu := some cpu }
      let mm ← c.memoryManager
      let (s, mm) := s.Stream env Subsystem.MemoryManager mm
      let c := { c with memoryManager := some mm }
      let ppu ← c.ppu
      let (s, ppu) := s.Stream env Subsystem.Ppu ppu
      let c := { c with ppu := some ppu }
      let dma ← c.dmaController
      let (s, dma) := s.Stream env Subsystem.DmaController dma
      let c := { c with dmaController := some dma }
      let regs ← c.internalRegisters
      let (s, regs) := s.Stream env Subsystem.InternalRegisters regs
      let c := { c with internalRegisters := some regs }
      let cart ← c.cart
      let (s, cart) := s.StreamCart env cart
      let c := { c with cart := some cart }
      let ctl ← c.controlManager
      let (s, ctl) := s.Stream env Subsystem.ControlManager ctl
      let c := { c with controlManager := some ctl }
      let spc ← c.spc
      let (s, spc) := s.Stream env Subsystem.Spc spc
      let c := { c with spc := some spc }
      match c.msu1 with
      | some msu1 => pure { c with msu1 := some (s.Stream env Subsystem.Msu1 msu1).2 }
      | none => pure c
    else do
      let cart ← c.cart
      let (s, cart) := s.StreamCart env cart
      let c := { c with cart := some cart }
      let ctl ← c.controlManager
      let (_, ctl) := s.Stream env Subsystem.ControlManager ctl
      pure { c with controlManager := some ctl }
  pure (c.emit (Event.Notify ConsoleNotificationType.StateLoaded false))

/-! ## `Register16` (`GbTypes.h`) -/

/-- Memory as seen through `uint8_t*` pointers: the byte at each address. -/
abbrev Bytes := Nat → Nat

/-- Assignment through a `uint8_t*`: the byte at `addr` becomes `value`. -/
def Bytes.store (m : Bytes) (addr value : Nat) : Bytes :=
  fun a => if a = addr then value else m a

/-- The class `Register16`: the addresses its pointers `_high` and `_low` hold. -/
structure Register16 where
  high : Nat
  low : Nat
  deriving DecidableEq, Repr

/-- The function `Register16::Read`: `(*_high << 8) | *_low`, returned as a `uint16_t`. -/
def Register16.Read (r : Register16) (m : Bytes) : Nat :=
  ((m r.high <<< 8) ||| m r.low) % 2 ^ 16

/-- The function `Register16::Write` on a `uint16_t` value: `*_high = (uint8_t)(value >> 8)`,
then `*_low = (uint8_t)value`. -/
def Register16.Write (r : Register16) (m : Bytes) (value : Nat) : Bytes :=
  let m := m.store r.high ((value >>> 8) % 2 ^ 8)
  m.store r.low (value % 2 ^ 8)

/-- The function `Register16::Inc`: `Write(Read() + 1)`, the sum converted to `uint16_t`. -/
def Register16.Inc (r : Register16) (m : Bytes) : Bytes :=
  r.Write m ((r.Read m + 1) % 2 ^ 16)

/-- The function `Register16::Dec`: `Write(Read() - 1)`, the difference converted to
`uint16_t`. -/
def Register16.Dec (r : Register16) (m : Bytes) : Bytes :=
  r.Write m ((((r.Read m : Int) - 1) % 2 ^ 16).toNat)

/-! ## Call sequences on the run-lock -/

/-- One of the three calls that move the run-lock counter. -/
inductive LockOp where
  | Lock
  | Unlock
  | Reset
  deriving DecidableEq, Repr

/-- One call of the sequence: `Lock`, `Unlock` or `Reset`. -/
def applyLockOp (env : Env σ) : LockOp → Console σ → Option (Console σ)
  | LockOp.Lock, c => some (Lock c)
  | LockOp.Unlock, c => some (Unlock c)
  | LockOp.Reset, c => Reset env c

/-- Run a sequence of `Lock`, `Unlock` and `Reset` calls, first call first. -/
def runLockOps (env : Env σ) : List LockOp → Console σ → Option (Console σ)
  | [], c => some c
  | op :: ops, c => (applyLockOp env op c).bind (runLockOps env ops)

/-- Whether, with `depth` locks open, every `Unlock` of the sequence matches an earlier `Lock`
and every `Lock` is matched by an `Unlock`. -/
def matched : Nat → List LockOp → Bool
  | depth, [] => depth == 0
  | depth, LockOp.Lock :: ops => matched (depth + 1) ops
  | 0, LockOp.Unlock :: _ => false
  | depth + 1, LockOp.Unlock :: ops => matched depth ops
  | depth, LockOp.Reset :: ops => matched depth ops

/-- Whether `Reset` finds every subsystem it dereferences. -/
def ResetReady (c : Console σ) : Bool :=
  c.dmaController.isSome && c.internalRegisters.isSome && c.memoryManager.isSome &&
    c.spc.isSome && c.ppu.isSome && c.cart.isSome && c.cpu.isSome

/-- Whether a session is loaded: every subsystem `LoadRom` always creates is present. -/
def SessionLoaded (c : Console σ) : Bool :=
  c.cpu.isSome && c.memoryManager.isSome && c.ppu.isSome && c.dmaController.isSome &&
    c.internalRegisters.isSome && c.cart.isSome && c.controlManager.isSome && c.spc.isSome

/-- The identity behind a subsystem reference. -/
def refId (o : Option (Obj σ)) : Option Nat := o.map fun x => x.id

/-- The identity behind the cartridge reference. -/
def cartId (o : Option (BaseCartridge σ)) : Option Nat := o.map fun x => x.id

/-- The state behind a subsystem reference. -/
def refState (o : Option (Obj σ)) : Option σ := o.map fun x => x.state

/-- The state behind the cartridge reference. -/
def cartState (o : Option (BaseCartridge σ)) : Option σ := o.map fun x => x.state

/-- Whether a logged call is a notification sent through the notification manager. -/
def Event.isNotification : Event → Bool
  | Event.Notify _ _ => true
  | _ => false

/-- Whether a logged call displays a message to the user. -/
def Event.isMessage : Event → Bool
  | Event.DisplayMessage _ => true
  | _ => false

/-- Whether a logged call is the `.reset()` of a subsystem reference. -/
def Event.isRelease : Event → Bool
  | Event.Released _ => true
  | _ => false

/-- The calls `Stop` makes on the subsystem references and the presentation objects between
its notifications, in call order. -/
def stopTeardown : List Event :=
  [Event.VideoDecoderStopThread,
   Event.Released Subsystem.RewindManager,
   Event.Released Subsystem.Cpu,
   Event.Released Subsystem.Ppu,
   Event.Released Subsystem.Spc,
   Event.Released Subsystem.Cart,
   Event.Released Subsystem.InternalRegisters,
   Event.Released Subsystem.ControlManager,
   Event.Released Subsystem.MemoryManager,
   Event.Released Subsystem.DmaController,
   Event.Released Subsystem.Msu1,
   Event.StopAudio]

/-- Whether `LoadRom` takes a cartridge for a Gameboy one: no co-processor and a Gameboy core. -/
def isGameboyCart (cart : BaseCartridge σ) : Bool :=
  !cart.coprocessor && cart.gameboy.isSome

/-- The calls of `LoadRom` once a cartridge is at hand, up to the `GameLoaded` notification:
with `stopRom` the device update and the calls of `Stop(false)`, and for a Gameboy cartridge the
power-on of its core. -/
def loadCalls (romFile : VirtualFile) (stopRom gameboy : Bool) : List Event :=
  (if stopRom then
      [Event.KeyManagerUpdateDevices,
       Event.Notify ConsoleNotificationType.BeforeGameUnload false,
       Event.EmulationLockWaitForRelease] ++ stopTeardown
    else []) ++
  [Event.ClearCheats,
   Event.BatteryManagerInit romFile,
   Event.Call Subsystem.MemoryManager Method.Init,
   Event.Call Subsystem.InternalRegisters Method.Init] ++
  (if gameboy then [Event.Call Subsystem.Cart Method.GameboyPowerOn] else []) ++
  [Event.Call Subsystem.Ppu Method.PowerOn,
   Event.Call Subsystem.Cpu Method.PowerOn,
   Event.RegisterNotificationListener,
   Event.Call Subsystem.ControlManager Method.UpdateControlDevices]

/-! ## Concrete consoles and collaborators -/

/-- A collaborator environment over natural-number states: a constructor leaves state 0, a method
adds one, a block holds the state, and loading a block replaces the state by the block's number
(a missing or empty block gives 0). -/
def natEnv : Env Nat where
  FileFormatVersion := 8
  CreateCartridge := fun romFile patchFile =>
    if romFile = 0 then none
    else some { id := 0, region := ConsoleRegion.Ntsc, coprocessor := false, gameboy := none,
                romInfo := { RomFile := romFile, PatchFile := patchFile }, state := 0 }
  Msu1Init := fun _ => none
  construct := fun _ => 0
  call := fun _ _ s => s + 1
  encode := fun _ s => [s]
  decode := fun _ _ b _ => b.headD 0

/-- A Pal cartridge without co-processor or Gameboy core. -/
def palCart : BaseCartridge Nat :=
  { id := 5, region := ConsoleRegion.Pal, coprocessor := false, gameboy := none,
    romInfo := { RomFile := 7, PatchFile := 0 }, state := 15 }

/-- A console with a loaded session in the primary architecture: region configured Auto, a Pal
cartridge, no streaming-audio unit. -/
def palConsole : Console Nat :=
  { cpu := some { id := 1, state := 11 }
    ppu := some { id := 2, state := 12 }
    spc := some { id := 3, state := 13 }
    memoryManager := some { id := 4, state := 14 }
    cart := some palCart
    internalRegisters := some { id := 6, state := 16 }
    controlManager := some { id := 7, state := 17 }
    dmaController := some { id := 8, state := 18 }
    msu1 := none
    rewindManager := some { id := 9, state := 19 }
    settings := { emulation := { Region := ConsoleRegion.Auto, rest := 0 }
                  video := { IntegerFpsMode := false }
                  GameboyMode := false }
    lockCounter := 0
    stopFlag := false
    paused := false
    region := ConsoleRegion.Pal
    consoleType := ConsoleType.Snes
    masterClockRate := 21281370
    frameRunning := false
    nextId := 10
    log := [] }

/-- The session of `palConsole` at a later moment: the same objects, with other states. -/
def palConsoleLater : Console Nat :=
  { palConsole with
    cpu := some { id := 1, state := 21 }
    ppu := some { id := 2, state := 22 }
    spc := some { id := 3, state := 23 }
    memoryManager := some { id := 4, state := 24 }
    cart := some { palCart with state := 25 }
    internalRegisters := some { id := 6, state := 26 }
    controlManager := some { id := 7, state := 27 }
    dmaController := some { id := 8, state := 28 } }

/-- A console on which no session is loaded. -/
def emptyConsole : Console Nat :=
  { cpu := none, ppu := none, spc := none, memoryManager := none, cart := none
    internalRegisters := none, controlManager := none, dmaController := none, msu1 := none
    rewindManager := none
    settings := { emulation := { Region := ConsoleRegion.Auto, rest := 0 }
                  video := { IntegerFpsMode := false }
                  GameboyMode := false }
    lockCounter := 0
    stopFlag := false
    paused := false
    region := ConsoleRegion.Ntsc
    consoleType := ConsoleType.Snes
    masterClockRate := 21477270
    frameRunning := false
    nextId := 0
    log := [] }

/-- A monochrome Gameboy cartridge: no co-processor, a Gameboy core that is not CGB. -/
def gameboyCart : BaseCartridge Nat :=
  { id := 5, region := ConsoleRegion.Ntsc, coprocessor := false, gameboy := some false,
    romInfo := { RomFile := 9, PatchFile := 0 }, state := 15 }

/-- A console with a loaded session in the Gameboy architecture. -/
def gameboyConsole : Console Nat :=
  { palConsole with
    cart := some gameboyCart
    settings := { emulation := { Region := ConsoleRegion.Auto, rest := 0 }
                  video := { IntegerFpsMode := false }
                  GameboyMode := true }
    region := ConsoleRegion.Ntsc
    consoleType := ConsoleType.Gameboy
    masterClockRate := 21477270 }

/-- The session of `gameboyConsole` at a later moment: the same objects, with other states in
the cartridge, the control manager, the processor and the register block. -/
def gameboyConsoleLater : Console Nat :=
  { gameboyConsole with
    cart := some { gameboyCart with state := 25 }
    controlManager := some { id := 7, state := 27 }
    cpu := some { id := 1, state := 21 }
    internalRegisters := some { id := 6, state := 26 } }

/-! ## Theorems -/

/-- A `uint32_t` after `++` is below `2 ^ 32`. -/
theorem inc32_lt (n : Nat) : inc32 n < 2 ^ 32 := by
  unfold inc32
  exact Nat.mod_lt _ (by norm_num)

/-- A `uint32_t` after `--` is below `2 ^ 32`. -/
theorem dec32_lt (n : Nat) : dec32 n < 2 ^ 32 := by
  unfold dec32
  norm_num
  omega

/-- On a `uint32_t`, `--` undoes `++`. -/
theorem dec32_inc32 (n : Nat) (h : n < 2 ^ 32) : dec32 (inc32 n) = n := by
  unfold dec32 inc32
  norm_num at h ⊢
  omega

/-- What `Reset` does on a console that holds every subsystem it dereferences. -/
theorem Reset_spec (env : Env σ) (c : Console σ) (h : ResetReady c = true) :
    ∃ c1, Reset env c = some c1 ∧
      c1.lockCounter = dec32 (inc32 c.lockCounter) ∧
      c1.log = c.log ++
        [Event.RunLockAcquire,
         Event.Call Subsystem.DmaController Method.Reset,
         Event.Call Subsystem.InternalRegisters Method.Reset,
         Event.Call Subsystem.MemoryManager Method.Reset,
         Event.Call Subsystem.Spc Method.Reset,
         Event.Call Subsystem.Ppu Method.Reset,
         Event.Call Subsystem.Cart Method.Reset,
         Event.Call Subsystem.Cpu Method.Reset,
         Event.Notify ConsoleNotificationType.GameReset false,
         Event.ProcessEventReset,
         Event.RunLockRelease] ∧
      (refId c1.cpu = refId c.cpu ∧ refId c1.ppu = refId c.ppu ∧ refId c1.spc = refId c.spc ∧
        refId c1.memoryManager = refId c.memoryManager ∧ cartId c1.cart = cartId c.cart ∧
        refId c1.internalRegisters = refId c.internalRegisters ∧
        refId c1.dmaController = refId c.dmaController) ∧
      (c1.controlManager = c.controlManager ∧ c1.msu1 = c.msu1 ∧
        c1.rewindManager = c.rewindManager) ∧
      (refState c1.dmaController =
          (refState c.dmaController).map (env.call Subsystem.DmaController Method.Reset) ∧
        refState c1.internalRegisters =
          (refState c.internalRegisters).map (env.call Subsystem.InternalRegisters Method.Reset) ∧
        refState c1.memoryManager =
          (refState c.memoryManager).map (env.call Subsystem.MemoryManager Method.Reset) ∧
        refState c1.spc = (refState c.spc).map (env.call Subsystem.Spc Method.Reset) ∧
        refState c1.ppu = (refState c.ppu).map (env.call Subsystem.Ppu Method.Reset) ∧
        cartState c1.cart = (cartState c.cart).map (env.call Subsystem.Cart Method.Reset) ∧
        refState c1.cpu = (refState c.cpu).map (env.call Subsystem.Cpu Method.Reset)) ∧
      ResetReady c1 = true := by
  obtain ⟨cpu, ppu, spc, mm, cart, regs, ctl, dma, msu1, rew, settings, lc, sf, pa, region, ct,
    mcr, fr, nid, log⟩ := c
  simp only [ResetReady, Bool.and_eq_true, Option.isSome_iff_exists] at h
  obtain ⟨⟨⟨⟨⟨⟨⟨dma, rfl⟩, ⟨regs, rfl⟩⟩, ⟨mm, rfl⟩⟩, ⟨spc, rfl⟩⟩, ⟨ppu, rfl⟩⟩,
    ⟨cart, rfl⟩⟩, ⟨cpu, rfl⟩⟩ := h
  refine ⟨_, rfl, rfl, ?_, ⟨rfl, rfl, rfl, rfl, rfl, rfl, rfl⟩, ⟨rfl, rfl, rfl⟩,
    ⟨rfl, rfl, rfl, rfl, rfl, rfl, rfl⟩, rfl⟩
  dsimp only [Console.emit]
  simp only [List.append_assoc, List.cons_append, List.nil_append]

/-- The first call of a sequence runs, then the rest. -/
theorem runLockOps_cons (env : Env σ) (op : LockOp) (ops : List LockOp) (c : Console σ) :
    runLockOps env (op :: ops) c = (applyLockOp env op c).bind (runLockOps env ops) :=
  rfl

/-- The counter after a sequence of calls that is matched from `depth` open locks. -/
theorem runLockOps_counter (env : Env σ) :
    ∀ (ops : List LockOp) (c : Console σ) (depth : Nat), c.lockCounter < 2 ^ 32 →
      matched depth ops = true → (ResetReady c = true ∨ LockOp.Reset ∉ ops) →
      ∃ c1, runLockOps env ops c = some c1 ∧ c1.lockCounter < 2 ^ 32 ∧
        (c1.lockCounter + depth) % 2 ^ 32 = c.lockCounter := by
  intro ops
  induction ops with
  | nil =>
    intro c depth hc hm _
    simp only [matched, beq_iff_eq] at hm
    subst hm
    exact ⟨c, rfl, hc, by simpa using Nat.mod_eq_of_lt hc⟩
  | cons op ops ih =>
    intro c depth hc hm hr
    rw [runLockOps_cons]
    cases op with
    | Lock =>
      have hready : ResetReady (Lock c) = ResetReady c := rfl
      have hr1 : ResetReady (Lock c) = true ∨ LockOp.Reset ∉ ops := by
        rcases hr with hr | hr
        · exact Or.inl (hready.trans hr)
        · exact Or.inr (fun hin => hr (List.mem_cons_of_mem _ hin))
      have hcount : (Lock c).lockCounter = inc32 c.lockCounter := rfl
      have hlt : (Lock c).lockCounter < 2 ^ 32 := by
        rw [hcount]
        exact inc32_lt _
      obtain ⟨c1, hrun, hlt1, heq⟩ := ih (Lock c) (depth + 1) hlt (by simpa [matched] using hm) hr1
      refine ⟨c1, ?_, hlt1, ?_⟩
      · simp only [applyLockOp, Option.some_bind]
        exact hrun
      · rw [hcount] at heq
        unfold inc32 at heq
        norm_num at heq hc hlt1 ⊢
        omega
    | Unlock =>
      cases depth with
      | zero => simp [matched] at hm
      | succ depth =>
        have hready : ResetReady (Unlock c) = ResetReady c := rfl
        have hr1 : ResetReady (Unlock c) = true ∨ LockOp.Reset ∉ ops := by
          rcases hr with hr | hr
          · exact Or.inl (hready.trans hr)
          · exact Or.inr (fun hin => hr (List.mem_cons_of_mem _ hin))
        have hcount : (Unlock c).lockCounter = dec32 c.lockCounter := rfl
        have hlt : (Unlock c).lockCounter < 2 ^ 32 := by
          rw [hcount]
          exact dec32_lt _
        obtain ⟨c1, hrun, hlt1, heq⟩ := ih (Unlock c) depth hlt (by simpa [matched] using hm) hr1
        refine ⟨c1, ?_, hlt1, ?_⟩
        · simp only [applyLockOp, Option.some_bind]
          exact hrun
        · rw [hcount] at heq
          unfold dec32 at heq
          norm_num at heq hc hlt1 ⊢
          omega
    | Reset =>
      have hready : ResetReady c = true := by
        rcases hr with hr | hr
        · exact hr
        · exact absurd (List.mem_cons_self _ _) hr
      obtain ⟨c0, hreset, hcount, -, -, -, -, hready0⟩ := Reset_spec env c hready
      have hlt : c0.lockCounter < 2 ^ 32 := by
        rw [hcount]
        exact dec32_lt _
      obtain ⟨c1, hrun, hlt1, heq⟩ :=
        ih c0 depth hlt (by simpa [matched] using hm) (Or.inl hready0)
      refine ⟨c1, ?_, hlt1, ?_⟩
      · simp only [applyLockOp, hreset, Option.some_bind]
        exact hrun
      · rw [hcount] at heq
        unfold inc32 dec32 at heq
        norm_num at heq hc hlt1 ⊢
        omega

/-- Appending the calls one by one appends them all. -/
theorem snoc_all (log es : List Event) :
    es.foldl (fun acc e => acc ++ [e]) log = log ++ es := by
  induction es generalizing log with
  | nil => simp
  | cons e es ih => simp [ih]

/-- A log that grew call by call is the old log followed by the calls. -/
theorem log_eq_of_snoc (log es l : List Event)
    (h : l = es.foldl (fun acc e => acc ++ [e]) log) : l = log ++ es :=
  h.trans (snoc_all log es)

/-- What a `LoadRom` that is not for a power cycle does when the cartridge is created. -/
theorem LoadRom_created_spec (env : Env σ) (c : Console σ) (romFile patchFile : VirtualFile)
    (stopRom : Bool) (made : BaseCartridge σ)
    (hmade : env.CreateCartridge romFile patchFile = some made) :
    ∃ c1, LoadRom env c romFile patchFile stopRom false = some (true, c1) ∧
      c1.log = c.log ++
        ((if c.cart.isSome then [Event.Call Subsystem.Cart Method.SaveBattery] else []) ++
          loadCalls romFile stopRom (isGameboyCart made) ++
          [Event.Notify ConsoleNotificationType.GameLoaded false,
           Event.DisplayMessage
            (Message.GameLoaded (decide (c1.region = ConsoleRegion.Pal))
              made.romInfo.RomFile)]) ∧
      c1.consoleType =
        (if isGameboyCart made then
          (if made.gameboy = some true then ConsoleType.GameboyColor else ConsoleType.Gameboy)
          else ConsoleType.Snes) ∧
      c1.settings.GameboyMode = isGameboyCart made ∧
      c1.settings.emulation = c.settings.emulation ∧
      c1.settings.video = c.settings.video ∧
      c1.lockCounter = c.lockCounter ∧
      cartId c1.cart = some c.nextId ∧
      (c1.cart.map fun held => (held.coprocessor, held.gameboy)) =
        some (made.coprocessor, made.gameboy) ∧
      SessionLoaded c1 = true := by
  simp only [LoadRom, hmade]
  obtain ⟨cpu, ppu, spc, mm, cart0, regs, ctl, dma, msu1, rew, ⟨⟨reg, rest⟩, video, gbm⟩, lc, sf,
    pa, region, ct, mcr, fr, nid, log⟩ := c
  obtain ⟨cid, cregion, cco, cgb, cinfo, cstate⟩ := made
  cases cart0 <;> cases reg <;> cases cco <;> rcases cgb with _ | _ | _ <;> cases stopRom <;>
    exact ⟨_, rfl, log_eq_of_snoc log _ _ rfl, rfl, rfl, rfl, rfl, rfl, rfl, rfl, rfl⟩

/-- What a `LoadRom` for a power cycle does on a console that holds a cartridge. -/
theorem LoadRom_powerCycle_spec (env : Env σ) (c : Console σ) (romFile patchFile : VirtualFile)
    (stopRom : Bool) (cart : BaseCartridge σ) (hcart : c.cart = some cart) :
    ∃ c1, LoadRom env c romFile patchFile stopRom true = some (true, c1) ∧
      c1.log = c.log ++
        ([Event.Call Subsystem.Cart Method.SaveBattery] ++
          loadCalls romFile stopRom (isGameboyCart cart) ++
          [Event.Notify ConsoleNotificationType.GameLoaded true]) ∧
      c1.consoleType =
        (if isGameboyCart cart then
          (if cart.gameboy = some true then ConsoleType.GameboyColor else ConsoleType.Gameboy)
          else ConsoleType.Snes) ∧
      c1.settings.GameboyMode = isGameboyCart cart ∧
      c1.settings.emulation = c.settings.emulation ∧
      c1.settings.video = c.settings.video ∧
      c1.lockCounter = c.lockCounter ∧
      cartId c1.cart = some cart.id ∧
      (c1.cart.map fun held => (held.coprocessor, held.gameboy)) =
        some (cart.coprocessor, cart.gameboy) ∧
      SessionLoaded c1 = true := by
  obtain ⟨cpu, ppu, spc, mm, cart0, regs, ctl, dma, msu1, rew, ⟨⟨reg, rest⟩, video, gbm⟩, lc, sf,
    pa, region, ct, mcr, fr, nid, log⟩ := c
  obtain ⟨cid, cregion, cco, cgb, cinfo, cstate⟩ := cart
  simp only at hcart
  subst hcart
  cases reg <;> cases cco <;> rcases cgb with _ | _ | _ <;> cases stopRom <;>
    exact ⟨_, rfl, log_eq_of_snoc log _ _ rfl, rfl, rfl, rfl, rfl, rfl, rfl, rfl, rfl⟩

/-- Over bytes, `Read` is `high * 256 + low`. -/
theorem Register16.Read_eq (r : Register16) (m : Bytes) (hm : ∀ a, m a < 2 ^ 8) :
    r.Read m = m r.high * 256 + m r.low := by
  have hh := hm r.high
  have hl := hm r.low
  unfold Register16.Read
  rw [Nat.shiftLeft_eq, Nat.mul_comm, ← Nat.mul_add_lt_is_or hl]
  norm_num at hh hl ⊢
  omega

/-- The two bytes after `Write`, when the register's bytes are distinct. -/
theorem Register16.Write_bytes (r : Register16) (m : Bytes) (v : Nat) (hd : r.high ≠ r.low) :
    r.Write m v r.high = (v >>> 8) % 2 ^ 8 ∧ r.Write m v r.low = v % 2 ^ 8 := by
  unfold Register16.Write Bytes.store
  simp [hd]

/-- After `Write` every byte is a byte. -/
theorem Register16.Write_lt (r : Register16) (m : Bytes) (v : Nat) (hm : ∀ a, m a < 2 ^ 8) :
    ∀ a, r.Write m v a < 2 ^ 8 := by
  intro a
  have := hm a
  unfold Register16.Write Bytes.store
  split_ifs
  · exact Nat.mod_lt _ (by norm_num)
  · exact Nat.mod_lt _ (by norm_num)
  · exact this

/-- Reading back what `Write` wrote. -/
theorem Register16.Read_Write (r : Register16) (m : Bytes) (v : Nat) (hd : r.high ≠ r.low)
    (hv : v < 2 ^ 16) (hm : ∀ a, m a < 2 ^ 8) : r.Read (r.Write m v) = v := by
  rw [Register16.Read_eq r _ (Register16.Write_lt r m v hm)]
  obtain ⟨h1, h2⟩ := Register16.Write_bytes r m v hd
  rw [h1, h2, Nat.shiftRight_eq_div_pow]
  norm_num at hv ⊢
  omega

/-- C1: for every configured region and every cartridge, `UpdateRegion` returns, the resolved
region is the cartridge's region when the configuration says Auto and the configured region
otherwise, and the master clock rate is 21477270 for Ntsc and 21281370 for Pal; with Auto and a
Pal cartridge, `GetRegion` is Pal and `GetMasterClockRate` is 21281370. -/
theorem UpdateRegion_resolves (c : Console σ) (cart : BaseCartridge σ) (h : c.cart = some cart) :
    ∃ c1, UpdateRegion c = some c1 ∧
      (c.settings.emulation.Region = ConsoleRegion.Auto → GetRegion c1 = cart.region) ∧
      (c.settings.emulation.Region ≠ ConsoleRegion.Auto →
        GetRegion c1 = c.settings.emulation.Region) ∧
      (GetRegion c1 = ConsoleRegion.Ntsc → GetMasterClockRate c1 = 21477270) ∧
      (GetRegion c1 = ConsoleRegion.Pal → GetMasterClockRate c1 = 21281370) ∧
      (c.settings.emulation.Region = ConsoleRegion.Auto → cart.region = ConsoleRegion.Pal →
        GetRegion c1 = ConsoleRegion.Pal ∧ GetMasterClockRate c1 = 21281370) := by
  cases hr : c.settings.emulation.Region <;>
    simp [UpdateRegion, hr, h, GetRegion, GetMasterClockRate]
  intro h1 h2
  rw [h1] at h2
  exact absurd h2 (by decide)

/-- C1 at a concrete console: configuration Auto, a Pal cartridge. -/
theorem UpdateRegion_resolves_witness :
    ∃ c1, UpdateRegion palConsole = some c1 ∧
      (palConsole.settings.emulation.Region = ConsoleRegion.Auto →
        GetRegion c1 = palCart.region) ∧
      (palConsole.settings.emulation.Region ≠ ConsoleRegion.Auto →
        GetRegion c1 = palConsole.settings.emulation.Region) ∧
      (GetRegion c1 = ConsoleRegion.Ntsc → GetMasterClockRate c1 = 21477270) ∧
      (GetRegion c1 = ConsoleRegion.Pal → GetMasterClockRate c1 = 21281370) ∧
      (palConsole.settings.emulation.Region = ConsoleRegion.Auto →
        palCart.region = ConsoleRegion.Pal →
        GetRegion c1 = ConsoleRegion.Pal ∧ GetMasterClockRate c1 = 21281370) :=
  UpdateRegion_resolves palConsole palCart rfl

/-- C2: `GetFps` returns 59.72750056960583 in Gameboy mode whatever the region and the
integer-frame-rate preference; otherwise 60.0 or 60.0988118623484 for Ntsc and 50.0 or
50.00697796826829 for Pal, the first of each pair when integer mode is on. -/
theorem GetFps_constants (c : Console σ) :
    (c.settings.GameboyMode = true → GetFps c = 59.72750056960583) ∧
    (c.settings.GameboyMode = false → c.region = ConsoleRegion.Ntsc →
      GetFps c = if c.settings.video.IntegerFpsMode then 60.0 else 60.0988118623484) ∧
    (c.settings.GameboyMode = false → c.region = ConsoleRegion.Pal →
      GetFps c = if c.settings.video.IntegerFpsMode then 50.0 else 50.00697796826829) ∧
    (GetFps c = 59.72750056960583 ∨ GetFps c = 60.0 ∨ GetFps c = 60.0988118623484 ∨
      GetFps c = 50.0 ∨ GetFps c = 50.00697796826829) := by
  refine ⟨?_, ?_, ?_, ?_⟩
  · intro hg
    simp [GetFps, hg]
  · intro hg hr
    simp [GetFps, hg, hr]
  · intro hg hr
    simp [GetFps, hg, hr]
  · unfold GetFps
    split_ifs <;> simp

/-- C3: for every sequence of `Lock`, `Unlock` and `Reset` calls in which each `Unlock` matches an
earlier `Lock` and every `Lock` is matched (on a console holding the subsystems `Reset`
dereferences when the sequence has a `Reset`), the sequence runs to its end and the run-lock
counter afterwards is the counter before; from the 0 that `Initialize` sets it is 0 again, also
after a single `Lock` and its `Unlock`; and a `Reset` on its own leaves the counter unchanged. -/
theorem lock_balance (env : Env σ) (ops : List LockOp) (c : Console σ)
    (hc : c.lockCounter < 2 ^ 32) (hm : matched 0 ops = true)
    (hr : ResetReady c = true ∨ LockOp.Reset ∉ ops) :
    (∃ c1, runLockOps env ops c = some c1 ∧ c1.lockCounter = c.lockCounter) ∧
    (∃ c1, runLockOps env ops (Initialize c) = some c1 ∧ c1.lockCounter = 0) ∧
    (Unlock (Lock (Initialize c))).lockCounter = 0 ∧
    (ResetReady c = true → ∃ c1, Reset env c = some c1 ∧ c1.lockCounter = c.lockCounter) := by
  refine ⟨?_, ?_, ?_, ?_⟩
  · obtain ⟨c1, hrun, hlt, heq⟩ := runLockOps_counter env ops c 0 hc hm hr
    refine ⟨c1, hrun, ?_⟩
    norm_num at heq hc hlt ⊢
    omega
  · have hr0 : ResetReady (Initialize c) = true ∨ LockOp.Reset ∉ ops := by
      rcases hr with hr | hr
      · exact Or.inl hr
      · exact Or.inr hr
    have hzero : (Initialize c).lockCounter = 0 := rfl
    obtain ⟨c1, hrun, hlt, heq⟩ :=
      runLockOps_counter env ops (Initialize c) 0 (by rw [hzero]; norm_num) hm hr0
    refine ⟨c1, hrun, ?_⟩
    rw [hzero] at heq
    norm_num at heq hlt ⊢
    omega
  · show dec32 (inc32 0) = 0
    exact dec32_inc32 0 (by norm_num)
  · intro hready
    obtain ⟨c1, hreset, hcount, -⟩ := Reset_spec env c hready
    refine ⟨c1, hreset, ?_⟩
    rw [hcount]
    exact dec32_inc32 _ hc

/-- C3 at a concrete console: a nested sequence with a `Reset` inside, on a loaded session. -/
theorem lock_balance_witness :
    (∃ c1, runLockOps natEnv
        [LockOp.Lock, LockOp.Reset, LockOp.Lock, LockOp.Unlock, LockOp.Unlock] palConsole = some c1 ∧
      c1.lockCounter = palConsole.lockCounter) ∧
    (∃ c1, runLockOps natEnv
        [LockOp.Lock, LockOp.Reset, LockOp.Lock, LockOp.Unlock, LockOp.Unlock]
        (Initialize palConsole) = some c1 ∧ c1.lockCounter = 0) ∧
    (Unlock (Lock (Initialize palConsole))).lockCounter = 0 ∧
    (ResetReady palConsole = true →
      ∃ c1, Reset natEnv palConsole = some c1 ∧ c1.lockCounter = palConsole.lockCounter) :=
  lock_balance natEnv [LockOp.Lock, LockOp.Reset, LockOp.Lock, LockOp.Unlock, LockOp.Unlock]
    palConsole (by decide) (by decide) (Or.inl (by decide))

/-- C4: when `CreateCartridge` returns no cartridge, `LoadRom` (not for a power cycle) returns
false for every console and every `stopRom`; it saves the battery of a held cartridge, displays
`CouldNotLoadFile` and makes no other call (no call of `Stop`), and every subsystem reference,
the stop flag, the console type, the region, the master clock rate and the settings are as
before. -/
theorem LoadRom_failure (env : Env σ) (c : Console σ) (romFile patchFile : VirtualFile)
    (stopRom : Bool) (h : env.CreateCartridge romFile patchFile = none) :
    ∃ c1, LoadRom env c romFile patchFile stopRom false = some (false, c1) ∧
      c1.log = c.log ++
        (if c.cart.isSome then [Event.Call Subsystem.Cart Method.SaveBattery] else []) ++
        [Event.DisplayMessage (Message.CouldNotLoadFile romFile)] ∧
      c1.stopFlag = c.stopFlag ∧
      c1.cpu = c.cpu ∧ c1.ppu = c.ppu ∧ c1.spc = c.spc ∧ c1.memoryManager = c.memoryManager ∧
      cartId c1.cart = cartId c.cart ∧ c1.internalRegisters = c.internalRegisters ∧
      c1.controlManager = c.controlManager ∧ c1.dmaController = c.dmaController ∧
      c1.msu1 = c.msu1 ∧ c1.rewindManager = c.rewindManager ∧
      c1.consoleType = c.consoleType ∧ GetRegion c1 = GetRegion c ∧
      GetMasterClockRate c1 = GetMasterClockRate c ∧ c1.settings = c.settings := by
  cases hcart : c.cart <;>
    simp [LoadRom, h, hcart, Console.emit, cartId, GetRegion, GetMasterClockRate,
      BaseCartridge.call]

/-- C4 at a concrete console: a loaded session and the file 0, which the concrete
`CreateCartridge` does not recognise, with `stopRom` set. -/
theorem LoadRom_failure_witness :
    ∃ c1, LoadRom natEnv palConsole 0 0 true false = some (false, c1) ∧
      c1.log = palConsole.log ++
        (if palConsole.cart.isSome then [Event.Call Subsystem.Cart Method.SaveBattery] else []) ++
        [Event.DisplayMessage (Message.CouldNotLoadFile 0)] ∧
      c1.stopFlag = palConsole.stopFlag ∧
      c1.cpu = palConsole.cpu ∧ c1.ppu = palConsole.ppu ∧ c1.spc = palConsole.spc ∧
      c1.memoryManager = palConsole.memoryManager ∧
      cartId c1.cart = cartId palConsole.cart ∧
      c1.internalRegisters = palConsole.internalRegisters ∧
      c1.controlManager = palConsole.controlManager ∧
      c1.dmaController = palConsole.dmaController ∧
      c1.msu1 = palConsole.msu1 ∧ c1.rewindManager = palConsole.rewindManager ∧
      c1.consoleType = palConsole.consoleType ∧ GetRegion c1 = GetRegion palConsole ∧
      GetMasterClockRate c1 = GetMasterClockRate palConsole ∧
      c1.settings = palConsole.settings :=
  LoadRom_failure natEnv palConsole 0 0 true rfl

/-- C5, as the code has it: when every subsystem's block decodes, at the current format version,
to the state it encodes, deserializing the data `Serialize` writes for a loaded session `S` into
a loaded session `T` of the same profile (same Gameboy mode, streaming-audio unit present in
both or in neither) returns, keeps every object of `T`, and gives the cartridge and the control
manager the states they have in `S`; in the primary architecture it gives also the processor,
the memory manager, the pixel processor, the DMA engine, the register block, the sound
co-processor and the streaming-audio unit their states in `S`; in Gameboy mode those objects
keep the state they had in `T`. -/
theorem Deserialize_Serialize (env : Env σ) (S T : Console σ) (compressionLevel : Nat)
    (compressed : Bool) (hS : SessionLoaded S = true) (hT : SessionLoaded T = true)
    (hprofile : T.settings.GameboyMode = S.settings.GameboyMode)
    (hmsu1 : T.msu1.isSome = S.msu1.isSome)
    (hcodec : ∀ k s t, env.decode k env.FileFormatVersion (env.encode k s) t = s) :
    ∃ data T1, Serialize env S compressionLevel = some data ∧
      Deserialize env T data env.FileFormatVersion compressed = some T1 ∧
      (refId T1.cpu = refId T.cpu ∧ refId T1.memoryManager = refId T.memoryManager ∧
        refId T1.ppu = refId T.ppu ∧ refId T1.dmaController = refId T.dmaController ∧
        refId T1.internalRegisters = refId T.internalRegisters ∧ cartId T1.cart = cartId T.cart ∧
        refId T1.controlManager = refId T.controlManager ∧ refId T1.spc = refId T.spc ∧
        refId T1.msu1 = refId T.msu1 ∧ T1.rewindManager = T.rewindManager) ∧
      cartState T1.cart = cartState S.cart ∧
      refState T1.controlManager = refState S.controlManager ∧
      (S.settings.GameboyMode = false →
        refState T1.cpu = refState S.cpu ∧
        refState T1.memoryManager = refState S.memoryManager ∧
        refState T1.ppu = refState S.ppu ∧
        refState T1.dmaController = refState S.dmaController ∧
        refState T1.internalRegisters = refState S.internalRegisters ∧
        refState T1.spc = refState S.spc ∧
        refState T1.msu1 = refState S.msu1) ∧
      (S.settings.GameboyMode = true →
        T1.cpu = T.cpu ∧ T1.memoryManager = T.memoryManager ∧ T1.ppu = T.ppu ∧
        T1.dmaController = T.dmaController ∧ T1.internalRegisters = T.internalRegisters ∧
        T1.spc = T.spc ∧ T1.msu1 = T.msu1) := by
  obtain ⟨cpu, ppu, spc, mm, cart, regs, ctl, dma, msu1, rew, ⟨emu, video, gbm⟩, lc, sf,
    pa, region, ct, mcr, fr, nid, log⟩ := S
  obtain ⟨cpu', ppu', spc', mm', cart', regs', ctl', dma', msu1', rew', ⟨emu', video', gbm'⟩, lc',
    sf', pa', region', ct', mcr', fr', nid', log'⟩ := T
  simp only [SessionLoaded, Bool.and_eq_true, Option.isSome_iff_exists] at hS hT
  obtain ⟨⟨⟨⟨⟨⟨⟨⟨cpu, rfl⟩, ⟨mm, rfl⟩⟩, ⟨ppu, rfl⟩⟩, ⟨dma, rfl⟩⟩, ⟨regs, rfl⟩⟩, ⟨cart, rfl⟩⟩,
    ⟨ctl, rfl⟩⟩, ⟨spc, rfl⟩⟩ := hS
  obtain ⟨⟨⟨⟨⟨⟨⟨⟨cpu', rfl⟩, ⟨mm', rfl⟩⟩, ⟨ppu', rfl⟩⟩, ⟨dma', rfl⟩⟩, ⟨regs', rfl⟩⟩, ⟨cart', rfl⟩⟩,
    ⟨ctl', rfl⟩⟩, ⟨spc', rfl⟩⟩ := hT
  simp only at hprofile
  subst hprofile
  cases gbm' with
  | true =>
    refine ⟨_, _, rfl, rfl, ⟨rfl, rfl, rfl, rfl, rfl, rfl, rfl, rfl, rfl, rfl⟩,
      congrArg some (hcodec _ _ _), congrArg some (hcodec _ _ _),
      fun h => Bool.noConfusion h, fun _ => ⟨rfl, rfl, rfl, rfl, rfl, rfl, rfl⟩⟩
  | false =>
    cases msu1 with
    | none =>
      cases msu1' with
      | none =>
        refine ⟨_, _, rfl, rfl, ⟨rfl, rfl, rfl, rfl, rfl, rfl, rfl, rfl, rfl, rfl⟩,
          congrArg some (hcodec _ _ _), congrArg some (hcodec _ _ _),
          fun _ => ⟨congrArg some (hcodec _ _ _), congrArg some (hcodec _ _ _),
            congrArg some (hcodec _ _ _), congrArg some (hcodec _ _ _),
            congrArg some (hcodec _ _ _), congrArg some (hcodec _ _ _), rfl⟩,
          fun h => Bool.noConfusion h⟩
      | some m' => exact absurd (show true = false from hmsu1) (by decide)
    | some m =>
      cases msu1' with
      | none => exact absurd (show false = true from hmsu1) (by decide)
      | some m' =>
        refine ⟨_, _, rfl, rfl, ⟨rfl, rfl, rfl, rfl, rfl, rfl, rfl, rfl, rfl, rfl⟩,
          congrArg some (hcodec _ _ _), congrArg some (hcodec _ _ _),
          fun _ => ⟨congrArg some (hcodec _ _ _), congrArg some (hcodec _ _ _),
            congrArg some (hcodec _ _ _), congrArg some (hcodec _ _ _),
            congrArg some (hcodec _ _ _), congrArg some (hcodec _ _ _),
            congrArg some (hcodec _ _ _)⟩,
          fun h => Bool.noConfusion h⟩

/-- C5 at concrete sessions of the primary architecture: the states of `palConsole` are
loaded into the later session of the same objects. -/
theorem Deserialize_Serialize_witness :
    ∃ data T1, Serialize natEnv palConsole 0 = some data ∧
      Deserialize natEnv palConsoleLater data natEnv.FileFormatVersion false = some T1 ∧
      refState T1.cpu = refState palConsole.cpu ∧
      cartState T1.cart = cartState palConsole.cart ∧
      refId T1.cpu = refId palConsoleLater.cpu := by
  obtain ⟨data, T1, h1, h2, hid, hcart, -, hprimary, -⟩ :=
    Deserialize_Serialize natEnv palConsole palConsoleLater 0 false rfl rfl rfl rfl
      (fun _ _ _ => rfl)
  exact ⟨data, T1, h1, h2, (hprimary rfl).1, hcart, hid.1⟩

/-- C5 as stated fails in Gameboy mode: the blocks written for a loaded Gameboy session hold the
cartridge and the control manager only, so deserializing them into the same session at a later
moment leaves the processor and the register block in their later states, not the saved ones. -/
theorem Deserialize_Serialize_gameboy_keeps_target :
    SessionLoaded gameboyConsole = true ∧ SessionLoaded gameboyConsoleLater = true ∧
    gameboyConsoleLater.settings.GameboyMode = gameboyConsole.settings.GameboyMode ∧
    ((Serialize natEnv gameboyConsole 0).bind fun data =>
        (Deserialize natEnv gameboyConsoleLater data natEnv.FileFormatVersion false).map
          fun T1 => (refState T1.cpu, refState T1.internalRegisters, cartState T1.cart)) =
      some (some 21, some 26, some 15) ∧
    refState gameboyConsole.cpu = some 11 ∧
    refState gameboyConsole.internalRegisters = some 16 := by
  decide

/-- C6: on a loaded session `Serialize` writes, in the primary architecture, exactly the blocks of
the processor, the memory manager, the pixel processor, the DMA engine, the register block, the
cartridge, the control manager and the sound co-processor, followed by the block of the
streaming-audio unit exactly when one is present, in that order; in Gameboy mode it writes
exactly the blocks of the cartridge and the control manager, in that order. -/
theorem Serialize_block_order (env : Env σ) (c : Console σ) (compressionLevel : Nat)
    (cpu mm ppu dma regs ctl spc : Obj σ) (cart : BaseCartridge σ)
    (hcpu : c.cpu = some cpu) (hmm : c.memoryManager = some mm) (hppu : c.ppu = some ppu)
    (hdma : c.dmaController = some dma) (hregs : c.internalRegisters = some regs)
    (hcart : c.cart = some cart) (hctl : c.controlManager = some ctl) (hspc : c.spc = some spc) :
    Serialize env c compressionLevel = some
      (if c.settings.GameboyMode then
        [env.encode Subsystem.Cart cart.state, env.encode Subsystem.ControlManager ctl.state]
      else
        [env.encode Subsystem.Cpu cpu.state,
         env.encode Subsystem.MemoryManager mm.state,
         env.encode Subsystem.Ppu ppu.state,
         env.encode Subsystem.DmaController dma.state,
         env.encode Subsystem.InternalRegisters regs.state,
         env.encode Subsystem.Cart cart.state,
         env.encode Subsystem.ControlManager ctl.state,
         env.encode Subsystem.Spc spc.state] ++
        (c.msu1.map fun msu1 => env.encode Subsystem.Msu1 msu1.state).toList) := by
  obtain ⟨cpu0, ppu0, spc0, mm0, cart0, regs0, ctl0, dma0, msu1, rew, ⟨emu, video, gbm⟩, lc, sf,
    pa, region, ct, mcr, fr, nid, log⟩ := c
  simp only at hcpu hmm hppu hdma hregs hcart hctl hspc
  subst hcpu hmm hppu hdma hregs hcart hctl hspc
  cases gbm <;> cases msu1 <;> rfl

/-- C6 at a concrete loaded session of the primary architecture. -/
theorem Serialize_block_order_witness :
    Serialize natEnv palConsole 0 = some
      (if palConsole.settings.GameboyMode then
        [natEnv.encode Subsystem.Cart palCart.state,
         natEnv.encode Subsystem.ControlManager 17]
      else
        [natEnv.encode Subsystem.Cpu 11,
         natEnv.encode Subsystem.MemoryManager 14,
         natEnv.encode Subsystem.Ppu 12,
         natEnv.encode Subsystem.DmaController 18,
         natEnv.encode Subsystem.InternalRegisters 16,
         natEnv.encode Subsystem.Cart palCart.state,
         natEnv.encode Subsystem.ControlManager 17,
         natEnv.encode Subsystem.Spc 13] ++
        (palConsole.msu1.map fun msu1 => natEnv.encode Subsystem.Msu1 msu1.state).toList) :=
  Serialize_block_order natEnv palConsole 0 { id := 1, state := 11 } { id := 4, state := 14 }
    { id := 2, state := 12 } { id := 8, state := 18 } { id := 6, state := 16 }
    { id := 7, state := 17 } { id := 3, state := 13 } palCart rfl rfl rfl rfl rfl rfl rfl rfl

/-- C7, as the code has it: `Deserialize` makes no check of the format version and has no result
to report a failure with. On a loaded session, for every input and every format version, it
returns, decodes the blocks of the input at that version, in the order `Serialize` writes them,
into the subsystems the profile streams (an exhausted input gives empty blocks), keeps every
object, and sends `StateLoaded`. -/
theorem Deserialize_every_version (env : Env σ) (c : Console σ) (input : List Block)
    (fileFormatVersion : Nat) (compressed : Bool) (h : SessionLoaded c = true) :
    ∃ c1, Deserialize env c input fileFormatVersion compressed = some c1 ∧
      c1.log = c.log ++ [Event.Notify ConsoleNotificationType.StateLoaded false] ∧
      (refId c1.cpu = refId c.cpu ∧ refId c1.memoryManager = refId c.memoryManager ∧
        refId c1.ppu = refId c.ppu ∧ refId c1.dmaController = refId c.dmaController ∧
        refId c1.internalRegisters = refId c.internalRegisters ∧ cartId c1.cart = cartId c.cart ∧
        refId c1.controlManager = refId c.controlManager ∧ refId c1.spc = refId c.spc ∧
        refId c1.msu1 = refId c.msu1 ∧ c1.rewindManager = c.rewindManager) ∧
      (c.settings.GameboyMode = false →
        refState c1.cpu = (refState c.cpu).map
          (env.decode Subsystem.Cpu fileFormatVersion (input.getD 0 [])) ∧
        refState c1.memoryManager = (refState c.memoryManager).map
          (env.decode Subsystem.MemoryManager fileFormatVersion (input.getD 1 [])) ∧
        refState c1.ppu = (refState c.ppu).map
          (env.decode Subsystem.Ppu fileFormatVersion (input.getD 2 [])) ∧
        refState c1.dmaController = (refState c.dmaController).map
          (env.decode Subsystem.DmaController fileFormatVersion (input.getD 3 [])) ∧
        refState c1.internalRegisters = (refState c.internalRegisters).map
          (env.decode Subsystem.InternalRegisters fileFormatVersion (input.getD 4 [])) ∧
        cartState c1.cart = (cartState c.cart).map
          (env.decode Subsystem.Cart fileFormatVersion (input.getD 5 [])) ∧
        refState c1.controlManager = (refState c.controlManager).map
          (env.decode Subsystem.ControlManager fileFormatVersion (input.getD 6 [])) ∧
        refState c1.spc = (refState c.spc).map
          (env.decode Subsystem.Spc fileFormatVersion (input.getD 7 [])) ∧
        refState c1.msu1 = (refState c.msu1).map
          (env.decode Subsystem.Msu1 fileFormatVersion (input.getD 8 []))) ∧
      (c.settings.GameboyMode = true →
        cartState c1.cart = (cartState c.cart).map
          (env.decode Subsystem.Cart fileFormatVersion (input.getD 0 [])) ∧
        refState c1.controlManager = (refState c.controlManager).map
          (env.decode Subsystem.ControlManager fileFormatVersion (input.getD 1 [])) ∧
        c1.cpu = c.cpu ∧ c1.memoryManager = c.memoryManager ∧ c1.ppu = c.ppu ∧
        c1.dmaController = c.dmaController ∧ c1.internalRegisters = c.internalRegisters ∧
        c1.spc = c.spc ∧ c1.msu1 = c.msu1) := by
  obtain ⟨cpu, ppu, spc, mm, cart, regs, ctl, dma, msu1, rew, ⟨emu, video, gbm⟩, lc, sf,
    pa, region, ct, mcr, fr, nid, log⟩ := c
  simp only [SessionLoaded, Bool.and_eq_true, Option.isSome_iff_exists] at h
  obtain ⟨⟨⟨⟨⟨⟨⟨⟨cpu, rfl⟩, ⟨mm, rfl⟩⟩, ⟨ppu, rfl⟩⟩, ⟨dma, rfl⟩⟩, ⟨regs, rfl⟩⟩, ⟨cart, rfl⟩⟩,
    ⟨ctl, rfl⟩⟩, ⟨spc, rfl⟩⟩ := h
  cases gbm with
  | true =>
    rcases input with _ | ⟨b0, _ | ⟨b1, rest⟩⟩ <;>
      exact ⟨_, rfl, rfl, ⟨rfl, rfl, rfl, rfl, rfl, rfl, rfl, rfl, rfl, rfl⟩,
        fun h => Bool.noConfusion h, fun _ => ⟨rfl, rfl, rfl, rfl, rfl, rfl, rfl, rfl, rfl⟩⟩
  | false =>
    rcases input with _ | ⟨b0, _ | ⟨b1, _ | ⟨b2, _ | ⟨b3, _ | ⟨b4, _ | ⟨b5, _ | ⟨b6, _ | ⟨b7,
      _ | ⟨b8, rest⟩⟩⟩⟩⟩⟩⟩⟩⟩ <;> cases msu1 <;>
      exact ⟨_, rfl, rfl, ⟨rfl, rfl, rfl, rfl, rfl, rfl, rfl, rfl, rfl, rfl⟩,
        fun _ => ⟨rfl, rfl, rfl, rfl, rfl, rfl, rfl, rfl, rfl⟩, fun h => Bool.noConfusion h⟩

/-- C7 at a concrete loaded session and a format version the code does not know. -/
theorem Deserialize_every_version_witness :
    ∃ c1, Deserialize natEnv palConsole [[100], [101]] 9999 false = some c1 ∧
      c1.log = palConsole.log ++ [Event.Notify ConsoleNotificationType.StateLoaded false] ∧
      refState c1.cpu = (refState palConsole.cpu).map
        (natEnv.decode Subsystem.Cpu 9999 ([[100], [101]].getD 0 [])) := by
  obtain ⟨c1, h1, hlog, -, hprimary, -⟩ :=
    Deserialize_every_version natEnv palConsole [[100], [101]] 9999 false rfl
  exact ⟨c1, h1, hlog, (hprimary rfl).1⟩

/-- C7 as stated fails: with the format version 9999, which is not the current version 8,
`Deserialize` returns a console, the processor's state has been replaced by the first block,
and `StateLoaded` has been sent. -/
theorem Deserialize_unknown_version_mutates :
    natEnv.FileFormatVersion = 8 ∧
    (Deserialize natEnv palConsole
        [[100], [101], [102], [103], [104], [105], [106], [107]] 9999 false).map
        (fun c1 => (refState c1.cpu, c1.log)) =
      some (some 100, [Event.Notify ConsoleNotificationType.StateLoaded false]) ∧
    refState palConsole.cpu = some 11 := by
  decide

/-- C8, as the code has it: for every console, loaded or not, `Stop` first sends
`BeforeGameUnload` whatever `sendNotification` is and waits on the emulation lock; it sends
`BeforeEmulationStop` before the teardown and `EmulationStopped` after it exactly when
`sendNotification` is set, and sends no other notification. -/
theorem Stop_notifications (c : Console σ) (sendNotification : Bool) :
    (Stop c sendNotification).log = c.log ++
      [Event.Notify ConsoleNotificationType.BeforeGameUnload false,
       Event.EmulationLockWaitForRelease] ++
      (if sendNotification then
        [Event.Notify ConsoleNotificationType.BeforeEmulationStop false] else []) ++
      stopTeardown ++
      (if sendNotification then
        [Event.Notify ConsoleNotificationType.EmulationStopped false] else []) ∧
    ((Stop c sendNotification).log.drop c.log.length).filter Event.isNotification =
      Event.Notify ConsoleNotificationType.BeforeGameUnload false ::
        (if sendNotification then
          [Event.Notify ConsoleNotificationType.BeforeEmulationStop false,
           Event.Notify ConsoleNotificationType.EmulationStopped false] else []) := by
  cases sendNotification <;>
    simp [Stop, Console.emit, stopTeardown, Event.isNotification]

/-- C8 as stated fails: `Stop(false)` on a console without a session sends `BeforeGameUnload`. -/
theorem Stop_false_sends_BeforeGameUnload :
    (Stop emptyConsole false).log.filter Event.isNotification =
      [Event.Notify ConsoleNotificationType.BeforeGameUnload false] := by
  decide

/-- C9: on a loaded session `PowerCycle` runs to its end, the only notification it sends is
`GameLoaded` with parameter true, and it displays no message; on every console, with or without
a session, a `LoadRom` that is not for a power cycle and whose cartridge is created returns true,
sends `GameLoaded` with parameter false (after the `BeforeGameUnload` of its `Stop(false)` when
`stopRom` is set) and displays the "game loaded" message. -/
theorem GameLoaded_notification (env : Env σ) (c : Console σ) :
    (∀ (cart : BaseCartridge σ), c.cart = some cart →
      ∃ c1, PowerCycle env c = some c1 ∧
        (c1.log.drop c.log.length).filter Event.isNotification =
          [Event.Notify ConsoleNotificationType.GameLoaded true] ∧
        (c1.log.drop c.log.length).filter Event.isMessage = []) ∧
    (∀ (romFile patchFile : VirtualFile) (stopRom : Bool) (made : BaseCartridge σ),
      env.CreateCartridge romFile patchFile = some made →
      ∃ c1, LoadRom env c romFile patchFile stopRom false = some (true, c1) ∧
        (c1.log.drop c.log.length).filter Event.isNotification =
          (if stopRom then [Event.Notify ConsoleNotificationType.BeforeGameUnload false]
            else []) ++ [Event.Notify ConsoleNotificationType.GameLoaded false] ∧
        (c1.log.drop c.log.length).filter Event.isMessage =
          [Event.DisplayMessage
            (Message.GameLoaded (decide (GetRegion c1 = ConsoleRegion.Pal))
              made.romInfo.RomFile)]) := by
  constructor
  · intro cart hcart
    have hheld : (Lock c).cart = some cart := hcart
    obtain ⟨c1, hload, hlog, -⟩ := LoadRom_powerCycle_spec env (Lock c) cart.romInfo.RomFile
      cart.romInfo.PatchFile false cart hheld
    have hrun : PowerCycle env c = some (Unlock c1) := by
      simp only [PowerCycle, ReloadRom, hcart]
      rw [hload]
      rfl
    have hfinal : (Unlock c1).log = c.log ++ ([Event.RunLockAcquire] ++
        ([Event.Call Subsystem.Cart Method.SaveBattery] ++
          loadCalls cart.romInfo.RomFile false (isGameboyCart cart) ++
          [Event.Notify ConsoleNotificationType.GameLoaded true]) ++
        [Event.RunLockRelease]) := by
      have h1 : (Unlock c1).log = c1.log ++ [Event.RunLockRelease] := rfl
      have h2 : (Lock c).log = c.log ++ [Event.RunLockAcquire] := rfl
      rw [h1, hlog, h2]
      simp only [List.append_assoc]
    refine ⟨Unlock c1, hrun, ?_, ?_⟩
    · rw [hfinal, List.drop_left]
      cases isGameboyCart cart <;> rfl
    · rw [hfinal, List.drop_left]
      cases isGameboyCart cart <;> rfl
  · intro romFile patchFile stopRom made hmade
    obtain ⟨c1, hload, hlog, -⟩ := LoadRom_created_spec env c romFile patchFile stopRom made hmade
    refine ⟨c1, hload, ?_, ?_⟩
    · rw [hlog, List.drop_left]
      cases c.cart <;> cases stopRom <;> cases isGameboyCart made <;> rfl
    · rw [hlog, List.drop_left]
      cases c.cart <;> cases stopRom <;> cases isGameboyCart made <;> rfl

/-- C9 at concrete consoles: the power cycle of a loaded session, a load of file 3 with `stopRom`
on that session, and the first load of file 3 on the console without a session. -/
theorem GameLoaded_notification_witness :
    (∃ c1, PowerCycle natEnv palConsole = some c1 ∧
      (c1.log.drop palConsole.log.length).filter Event.isNotification =
        [Event.Notify ConsoleNotificationType.GameLoaded true] ∧
      (c1.log.drop palConsole.log.length).filter Event.isMessage = []) ∧
    (∃ c1, LoadRom natEnv palConsole 3 0 true false = some (true, c1) ∧
      (c1.log.drop palConsole.log.length).filter Event.isNotification =
        [Event.Notify ConsoleNotificationType.BeforeGameUnload false,
         Event.Notify ConsoleNotificationType.GameLoaded false] ∧
      (c1.log.drop palConsole.log.length).filter Event.isMessage =
        [Event.DisplayMessage
          (Message.GameLoaded (decide (GetRegion c1 = ConsoleRegion.Pal)) 3)]) ∧
    (∃ c1, LoadRom natEnv emptyConsole 3 0 false false = some (true, c1) ∧
      (c1.log.drop emptyConsole.log.length).filter Event.isNotification =
        [Event.Notify ConsoleNotificationType.GameLoaded false] ∧
      (c1.log.drop emptyConsole.log.length).filter Event.isMessage =
        [Event.DisplayMessage
          (Message.GameLoaded (decide (GetRegion c1 = ConsoleRegion.Pal)) 3)]) :=
  ⟨(GameLoaded_notification natEnv palConsole).1 palCart rfl,
    (GameLoaded_notification natEnv palConsole).2 3 0 true
      { id := 0, region := ConsoleRegion.Ntsc, coprocessor := false, gameboy := none,
        romInfo := { RomFile := 3, PatchFile := 0 }, state := 0 } rfl,
    (GameLoaded_notification natEnv emptyConsole).2 3 0 false
      { id := 0, region := ConsoleRegion.Ntsc, coprocessor := false, gameboy := none,
        romInfo := { RomFile := 3, PatchFile := 0 }, state := 0 } rfl⟩

/-- C10, as the code has it: on a session holding the subsystems it dereferences, `Reset` acquires
the run-lock, resets the DMA engine, the register block, the memory manager, the sound
co-processor, the pixel processor, the cartridge and, last, the processor, sends `GameReset`
and releases the run-lock, in that order; the control manager, the streaming-audio unit and the
rewind manager are not reset; and every subsystem reference afterwards is the one held before. -/
theorem Reset_order_and_identity (env : Env σ) (c : Console σ) (h : ResetReady c = true) :
    ∃ c1, Reset env c = some c1 ∧
      c1.log = c.log ++
        [Event.RunLockAcquire,
         Event.Call Subsystem.DmaController Method.Reset,
         Event.Call Subsystem.InternalRegisters Method.Reset,
         Event.Call Subsystem.MemoryManager Method.Reset,
         Event.Call Subsystem.Spc Method.Reset,
         Event.Call Subsystem.Ppu Method.Reset,
         Event.Call Subsystem.Cart Method.Reset,
         Event.Call Subsystem.Cpu Method.Reset,
         Event.Notify ConsoleNotificationType.GameReset false,
         Event.ProcessEventReset,
         Event.RunLockRelease] ∧
      refId c1.cpu = refId c.cpu ∧ refId c1.ppu = refId c.ppu ∧ refId c1.spc = refId c.spc ∧
      refId c1.memoryManager = refId c.memoryManager ∧ cartId c1.cart = cartId c.cart ∧
      refId c1.internalRegisters = refId c.internalRegisters ∧
      refId c1.dmaController = refId c.dmaController ∧
      c1.controlManager = c.controlManager ∧ c1.msu1 = c.msu1 ∧
      c1.rewindManager = c.rewindManager := by
  obtain ⟨c1, hreset, -, hlog, ⟨h1, h2, h3, h4, h5, h6, h7⟩, ⟨h8, h9, h10⟩, -, -⟩ :=
    Reset_spec env c h
  exact ⟨c1, hreset, hlog, h1, h2, h3, h4, h5, h6, h7, h8, h9, h10⟩

/-- C10 at a concrete loaded session. -/
theorem Reset_order_and_identity_witness :
    ∃ c1, Reset natEnv palConsole = some c1 ∧
      c1.log = palConsole.log ++
        [Event.RunLockAcquire,
         Event.Call Subsystem.DmaController Method.Reset,
         Event.Call Subsystem.InternalRegisters Method.Reset,
         Event.Call Subsystem.MemoryManager Method.Reset,
         Event.Call Subsystem.Spc Method.Reset,
         Event.Call Subsystem.Ppu Method.Reset,
         Event.Call Subsystem.Cart Method.Reset,
         Event.Call Subsystem.Cpu Method.Reset,
         Event.Notify ConsoleNotificationType.GameReset false,
         Event.ProcessEventReset,
         Event.RunLockRelease] ∧
      refId c1.cpu = refId palConsole.cpu ∧ refId c1.ppu = refId palConsole.ppu ∧
      refId c1.spc = refId palConsole.spc ∧
      refId c1.memoryManager = refId palConsole.memoryManager ∧
      cartId c1.cart = cartId palConsole.cart ∧
      refId c1.internalRegisters = refId palConsole.internalRegisters ∧
      refId c1.dmaController = refId palConsole.dmaController ∧
      c1.controlManager = palConsole.controlManager ∧ c1.msu1 = palConsole.msu1 ∧
      c1.rewindManager = palConsole.rewindManager :=
  Reset_order_and_identity natEnv palConsole (by decide)

/-- C10 as stated fails: on a loaded session, whose control manager is an owned subsystem, `Reset`
makes no `Reset` call on the control manager and leaves its state as it was, while the
processor's state is reset. -/
theorem Reset_skips_controlManager :
    palConsole.controlManager = some { id := 7, state := 17 } ∧
    (Reset natEnv palConsole).map
        (fun c1 => decide (Event.Call Subsystem.ControlManager Method.Reset ∈ c1.log)) =
      some false ∧
    (Reset natEnv palConsole).map (fun c1 => c1.controlManager) =
      some (some { id := 7, state := 17 }) ∧
    (Reset natEnv palConsole).map (fun c1 => c1.cpu) = some (some { id := 1, state := 12 }) ∧
    palConsole.cpu = some { id := 1, state := 11 } := by
  decide

/-- C11, as the code has it: `Stop` releases the rewind manager first, then the processor, the
pixel processor, the sound co-processor, the cartridge, the register block, the control manager,
the memory manager, the DMA engine and, last, the streaming-audio unit; after `Stop` every
subsystem reference is empty and `IsRunning` is false. -/
theorem Stop_teardown (c : Console σ) (sendNotification : Bool) :
    ((Stop c sendNotification).log.drop c.log.length).filter Event.isRelease =
      [Event.Released Subsystem.RewindManager,
       Event.Released Subsystem.Cpu,
       Event.Released Subsystem.Ppu,
       Event.Released Subsystem.Spc,
       Event.Released Subsystem.Cart,
       Event.Released Subsystem.InternalRegisters,
       Event.Released Subsystem.ControlManager,
       Event.Released Subsystem.MemoryManager,
       Event.Released Subsystem.DmaController,
       Event.Released Subsystem.Msu1] ∧
    ((Stop c sendNotification).rewindManager = none ∧ (Stop c sendNotification).cpu = none ∧
      (Stop c sendNotification).ppu = none ∧ (Stop c sendNotification).spc = none ∧
      (Stop c sendNotification).cart = none ∧
      (Stop c sendNotification).internalRegisters = none ∧
      (Stop c sendNotification).controlManager = none ∧
      (Stop c sendNotification).memoryManager = none ∧
      (Stop c sendNotification).dmaController = none ∧ (Stop c sendNotification).msu1 = none) ∧
    IsRunning (Stop c sendNotification) = false := by
  cases sendNotification <;>
    simp [Stop, Console.emit, Event.isRelease, IsRunning]

/-- C11 as stated fails: on a loaded session the processor is released second, right after the
rewind manager, and the last three releases are those of the memory manager, the DMA engine
and the streaming-audio unit, not of the processor, the memory manager and the cartridge. -/
theorem Stop_releases_processor_second :
    ((Stop palConsole false).log.filter Event.isRelease).take 2 =
      [Event.Released Subsystem.RewindManager, Event.Released Subsystem.Cpu] ∧
    ((Stop palConsole false).log.filter Event.isRelease).drop 7 =
      [Event.Released Subsystem.MemoryManager, Event.Released Subsystem.DmaController,
       Event.Released Subsystem.Msu1] := by
  decide

/-- C13: for a `Register16` over two distinct bytes and every 16-bit value `v`, `Read` after
`Write(v)` returns `v`, with the high byte `v >> 8` and the low byte `v & 0xFF`; `Read` is
`high * 256 + low`; and `Inc` and `Dec` change the value read by +1 and -1 modulo `2 ^ 16`, so
`Inc` at 0xFFFF gives 0x0000 and `Dec` at 0x0000 gives 0xFFFF. -/
theorem Register16_round_trip (r : Register16) (m : Bytes) (v : Nat) (hd : r.high ≠ r.low)
    (hv : v < 2 ^ 16) (hm : ∀ a, m a < 2 ^ 8) :
    r.Read (r.Write m v) = v ∧
    r.Write m v r.high = v >>> 8 ∧
    r.Write m v r.low = v &&& 0xFF ∧
    r.Read m = m r.high * 256 + m r.low ∧
    r.Read (r.Inc m) = (r.Read m + 1) % 2 ^ 16 ∧
    (r.Read (r.Dec m) : Int) = ((r.Read m : Int) - 1) % 2 ^ 16 ∧
    (r.Read m = 0xFFFF → r.Read (r.Inc m) = 0x0000) ∧
    (r.Read m = 0x0000 → r.Read (r.Dec m) = 0xFFFF) := by
  obtain ⟨h1, h2⟩ := Register16.Write_bytes r m v hd
  have hinc : r.Read (r.Inc m) = (r.Read m + 1) % 2 ^ 16 :=
    Register16.Read_Write r m _ hd (Nat.mod_lt _ (by norm_num)) hm
  have hdecv : (((r.Read m : Int) - 1) % 2 ^ 16).toNat < 2 ^ 16 := by
    norm_num
    omega
  have hdec : r.Read (r.Dec m) = (((r.Read m : Int) - 1) % 2 ^ 16).toNat :=
    Register16.Read_Write r m _ hd hdecv hm
  refine ⟨Register16.Read_Write r m v hd hv hm, ?_, ?_, Register16.Read_eq r m hm, hinc, ?_, ?_, ?_⟩
  · rw [h1, Nat.shiftRight_eq_div_pow]
    norm_num at hv ⊢
    omega
  · rw [h2]
    exact (Nat.and_pow_two_sub_one_eq_mod v 8).symm
  · rw [hdec]
    norm_num
    omega
  · intro h
    rw [hinc, h]
    norm_num
  · intro h
    rw [hdec, h]
    rfl

/-- C13 at a concrete register: bytes at addresses 0 and 1 of a zeroed memory, value 0x1234. -/
theorem Register16_round_trip_witness :
    (Register16.mk 0 1).Read ((Register16.mk 0 1).Write (fun _ => 0) 0x1234) = 0x1234 ∧
    (Register16.mk 0 1).Write (fun _ => 0) 0x1234 0 = 0x1234 >>> 8 ∧
    (Register16.mk 0 1).Write (fun _ => 0) 0x1234 1 = 0x1234 &&& 0xFF ∧
    (Register16.mk 0 1).Read (fun _ => 0) = 0 * 256 + 0 ∧
    (Register16.mk 0 1).Read ((Register16.mk 0 1).Inc (fun _ => 0)) =
      ((Register16.mk 0 1).Read (fun _ => 0) + 1) % 2 ^ 16 ∧
    (((Register16.mk 0 1).Read ((Register16.mk 0 1).Dec (fun _ => 0)) : Nat) : Int) =
      ((((Register16.mk 0 1).Read (fun _ => 0) : Nat) : Int) - 1) % 2 ^ 16 ∧
    ((Register16.mk 0 1).Read (fun _ => 0) = 0xFFFF →
      (Register16.mk 0 1).Read ((Register16.mk 0 1).Inc (fun _ => 0)) = 0x0000) ∧
    ((Register16.mk 0 1).Read (fun _ => 0) = 0x0000 →
      (Register16.mk 0 1).Read ((Register16.mk 0 1).Dec (fun _ => 0)) = 0xFFFF) :=
  Register16_round_trip (Register16.mk 0 1) (fun _ => 0) 0x1234 (by decide) (by norm_num)
    (fun _ => by norm_num)

end MesenS
